import Mathlib

/-!
Shallow embedding of the order/access-control core of the amstack platform.

Money (Django `DecimalField` with two decimal places) is modelled as `Int`
counting cents: the only operations performed on monetary values in the
source are addition, subtraction and multiplication by a quantity, all of
which are exact on fixed-point decimals, so `Int` is a faithful carrier.

The database is modelled as an explicit `State` record holding the rows of
each table as lists; Django querysets (`filter`, `exists`, `get`,
`get_or_create`) become list operations. Nondeterministic inputs of the
source (generated order numbers, `timezone.now()`, autoincrement ids, the
HMAC function, the JSON parser) are passed as explicit parameters.
-/

namespace Amstack

/-- Order status values (`Order.STATUS_*` in `orders/models_backup.py`). -/
inductive OStatus where
  | pending
  | paid
  | failed
  | refunded
  | cancelled
deriving DecidableEq, Repr

/-- `True` exactly on the `paid` status. -/
def OStatus.isPaid : OStatus → Bool
  | .paid => true
  | _ => false

/-- A catalog blog post (`blog.Post`): the fields the order core reads. -/
structure Post where
  id : Nat
  title : String
  is_free : Bool
  price : Int
  is_published : Bool
deriving DecidableEq, Repr

/-- A catalog course (`courses.Course`): the fields the order core reads. -/
structure Course where
  id : Nat
  title : String
  is_free : Bool
  price : Int
  is_published : Bool
deriving DecidableEq, Repr

/-- A catalog service (`services.Service`): the fields the order core reads.
`fixed_price` and `starting_price` are nullable decimals. -/
structure Service where
  id : Nat
  title : String
  fixed_price : Option Int
  starting_price : Option Int
deriving DecidableEq, Repr

/-- A lesson (`courses.Lesson`): the fields the lesson view reads. -/
structure Lesson where
  id : Nat
  courseId : Nat
  is_free : Bool
  is_published : Bool
deriving DecidableEq, Repr

/-- An `Order` row (`orders/models_backup.py`, class `Order`).
Timestamps other than `paid_at` are omitted; `paid_at` holds an abstract
clock value. The `coinbase_charge_id` correlation field is written by the
payment view and matched by the webhook. -/
structure OrderRec where
  id : Nat
  userId : Nat
  order_number : String
  status : OStatus
  billing_name : String
  billing_email : String
  billing_address : String
  subtotal : Int
  tax_amount : Int
  discount_amount : Int
  total_amount : Int
  payment_method : String
  payment_transaction_id : String
  payment_amount : Option Int
  paid_at : Option Nat
  product_type : String
  post : Option Nat
  course : Option Nat
  service : Option Nat
  amount : Option Int
  coinbase_charge_id : String
deriving DecidableEq, Repr

/-- An `OrderItem` row: a price-snapshotted line within an order. -/
structure OrderItemRec where
  orderId : Nat
  post : Option Nat
  course : Option Nat
  service : Option Nat
  product_name : String
  product_type : String
  unit_price : Int
  quantity : Nat
  total_price : Int
deriving DecidableEq, Repr

/-- An `Invoice` row (one-to-one with a paid order). -/
structure InvoiceRec where
  orderId : Nat
  subtotal : Int
  tax_amount : Int
  discount_amount : Int
  amount : Int
deriving DecidableEq, Repr

/-- A `BasketItem` row: user, exactly one product reference, quantity.
Note: the model stores no price; prices are read from the catalog. -/
structure BasketItemRec where
  id : Nat
  userId : Nat
  post : Option Nat
  course : Option Nat
  service : Option Nat
  quantity : Nat
deriving DecidableEq, Repr

/-- A `CourseEnrollment` row (`courses.CourseEnrollment`). -/
structure EnrollmentRec where
  userId : Nat
  courseId : Nat
  progress : Nat
  last_lesson : Option Nat
deriving DecidableEq, Repr

/-- The persisted state: catalog tables plus the order-core tables. -/
structure State where
  posts : List Post
  courses : List Course
  services : List Service
  lessons : List Lesson
  orders : List OrderRec
  orderItems : List OrderItemRec
  invoices : List InvoiceRec
  basketItems : List BasketItemRec
  enrollments : List EnrollmentRec
deriving DecidableEq, Repr

/-- `request.user`: either anonymous or an authenticated user id. -/
inductive UserRef where
  | anon
  | auth (id : Nat)
deriving DecidableEq, Repr

/-- `user.is_authenticated`. -/
def UserRef.is_authenticated : UserRef → Bool
  | .anon => false
  | .auth _ => true

/-- Row-level `user=request.user` queryset match: an anonymous user matches
no stored row. -/
def UserRef.matches : UserRef → Nat → Bool
  | .anon, _ => false
  | .auth i, j => i == j

/-- Equality of a nullable foreign key with a concrete row id
(`field=obj` in a queryset filter). -/
def refEq : Option Nat → Nat → Bool
  | some m, n => m == n
  | none, _ => false

/-- Catalog lookup by primary key. -/
def findPost (s : State) (pid : Nat) : Option Post :=
  s.posts.find? (fun p => p.id == pid)

/-- Catalog lookup by primary key. -/
def findCourse (s : State) (cid : Nat) : Option Course :=
  s.courses.find? (fun c => c.id == cid)

/-- Catalog lookup by primary key. -/
def findService (s : State) (sid : Nat) : Option Service :=
  s.services.find? (fun sv => sv.id == sid)

/-- `Order.objects.get(pk=oid)`-style lookup by order id. -/
def findOrder (s : State) (oid : Nat) : Option OrderRec :=
  s.orders.find? (fun o => o.id == oid)

/-- Status of the order with a given id, if present. -/
def statusOf (s : State) (oid : Nat) : Option OStatus :=
  (findOrder s oid).map (·.status)

/-- `paid_at` of the order with a given id, if present. -/
def paidAtOf (s : State) (oid : Nat) : Option (Option Nat) :=
  (findOrder s oid).map (·.paid_at)

/-- Number of invoice rows attached to an order (the one-to-one relation
allows at most one in the database). -/
def invoiceCount (s : State) (oid : Nat) : Nat :=
  (s.invoices.filter (fun i => i.orderId == oid)).length

/-- Replace the order with id `oid` by `g` applied to it, leaving every
other order unchanged (an UPDATE keyed by primary key). -/
def updateOrder (s : State) (oid : Nat) (g : OrderRec → OrderRec) : State :=
  { s with orders := s.orders.map (fun o => if o.id == oid then g o else o) }

/-- `order.status = X; order.save(update_fields=['status', 'updated_at'])`. -/
def setStatus (s : State) (oid : Nat) (st : OStatus) : State :=
  updateOrder s oid (fun o => { o with status := st })

/-!  ## Basket pricing (`BasketItem.get_unit_price`, models_backup.py 401-414)

`get_product` resolves the product with post → course → service precedence;
`get_unit_price` then reads the product's *current* catalog price:
a truthy `price` attribute first (posts and courses), then a truthy
`fixed_price`, then a truthy `starting_price` (services); `Decimal('0.00')`
otherwise. Python truthiness on decimals makes a zero price fall through. -/

/-- Truthy-or-fallback on a price value (`Decimal(0)` is falsy). -/
def truthyPrice (p : Int) (fallback : Int) : Int :=
  if p == 0 then fallback else p

/-- `Service` price resolution: `fixed_price` if truthy, else
`starting_price` if truthy, else 0. -/
def servicePrice (sv : Service) : Int :=
  match sv.fixed_price with
  | some f => if f == 0 then (match sv.starting_price with
      | some g => if g == 0 then 0 else g
      | none => 0)
    else f
  | none => match sv.starting_price with
    | some g => if g == 0 then 0 else g
    | none => 0

/-- `BasketItem.get_product_type`: post → course → service precedence. -/
def basket_get_product_type (b : BasketItemRec) : Option String :=
  match b.post with
  | some _ => some "post"
  | none => match b.course with
    | some _ => some "course"
    | none => match b.service with
      | some _ => some "service"
      | none => none

/-- `BasketItem.get_unit_price`: re-reads the referenced product's current
catalog price at call time (the basket stores no price snapshot). -/
def basket_get_unit_price (s : State) (b : BasketItemRec) : Int :=
  match b.post with
  | some pid => match findPost s pid with
    | some p => truthyPrice p.price 0
    | none => 0
  | none => match b.course with
    | some cid => match findCourse s cid with
      | some c => truthyPrice c.price 0
      | none => 0
    | none => match b.service with
      | some sid => match findService s sid with
        | some sv => servicePrice sv
        | none => 0
      | none => 0

/-- `str(product)` for a basket item's product (title of the resolved
catalog row). -/
def basket_product_name (s : State) (b : BasketItemRec) : String :=
  match b.post with
  | some pid => match findPost s pid with
    | some p => p.title
    | none => "None"
  | none => match b.course with
    | some cid => match findCourse s cid with
      | some c => c.title
      | none => "None"
    | none => match b.service with
      | some sid => match findService s sid with
        | some sv => sv.title
        | none => "None"
      | none => "None"

/-- `BasketItem.get_total_price` = unit price × quantity. -/
def basket_get_total_price (s : State) (b : BasketItemRec) : Int :=
  basket_get_unit_price s b * b.quantity

/-- The requesting user's basket rows
(`BasketItem.objects.filter(user=request.user)`). -/
def userBasket (s : State) (u : Nat) : List BasketItemRec :=
  s.basketItems.filter (fun b => b.userId == u)

/-!  ## OrderItem.save (models_backup.py 234-248) -/

/-- `OrderItem.save`: default `product_name` from the resolved product
(`'Unknown Product'` when none resolves), default `product_type` from the
set reference, then always recompute `total_price = unit_price * quantity`
before persisting. -/
def order_item_save (s : State) (it : OrderItemRec) : OrderItemRec :=
  let name :=
    if it.product_name == "" then
      match it.post with
      | some pid => match findPost s pid with
        | some p => p.title
        | none => "Unknown Product"
      | none => match it.course with
        | some cid => match findCourse s cid with
          | some c => c.title
          | none => "Unknown Product"
        | none => match it.service with
          | some sid => match findService s sid with
            | some sv => sv.title
            | none => "Unknown Product"
          | none => "Unknown Product"
    else it.product_name
  let ptype :=
    if it.product_type == "" then
      match it.post with
      | some _ => "post"
      | none => match it.course with
        | some _ => "course"
        | none => match it.service with
          | some _ => "service"
          | none => ""
    else it.product_type
  { it with product_name := name, product_type := ptype,
            total_price := it.unit_price * (it.quantity : Int) }

/-!  ## Enrollment helpers (`orders/utils.py`) -/

/-- `CourseEnrollment.objects.filter(user=..., course=...).exists()`. -/
def enrolled_in (s : State) (uid cid : Nat) : Bool :=
  s.enrollments.any (fun e => e.userId == uid && e.courseId == cid)

/-- `ensure_course_enrollment` / `CourseEnrollment.objects.get_or_create`:
create the enrollment row unless one already exists. -/
def enrollGetOrCreate (s : State) (uid cid : Nat) : State :=
  if enrolled_in s uid cid then s
  else { s with enrollments :=
    s.enrollments ++ [{ userId := uid, courseId := cid, progress := 0,
                        last_lesson := none }] }

/-!  ## Order methods (models_backup.py 112-152) -/

/-- `Invoice.objects.get_or_create(order=self, defaults={...})`:
create an invoice for the order unless one exists, snapshotting
`amount`/`tax_amount`/`subtotal` (discount takes the field default 0). -/
def invoiceGetOrCreate (s : State) (o : OrderRec) : State :=
  if s.invoices.any (fun i => i.orderId == o.id) then s
  else { s with invoices :=
    s.invoices ++ [{ orderId := o.id, subtotal := o.subtotal,
                     tax_amount := o.tax_amount, discount_amount := 0,
                     amount := o.total_amount }] }

/-- `Order.mark_paid(payment_method, transaction_id, payment_amount)`:
no-op if already paid; otherwise set status=paid, `paid_at=now`, record the
payment metadata (a blank transaction id falls back to a generated one, a
falsy payment amount falls back to the order total), persist, then
get-or-create the invoice. `now` models `timezone.now()`, `gen` models the
generated `uuid4().hex`. The order is addressed by id (`self`). The field
updates of the unpaid branch are factored into `paidRecord`. -/
def paidRecord (o : OrderRec) (pm tid : String) (pamt : Option Int)
    (now : Nat) (gen : String) : OrderRec :=
  { o with
    status := OStatus.paid
    paid_at := some now
    payment_method := pm
    payment_transaction_id := if tid == "" then gen else tid
    payment_amount := some (match pamt with
      | none => o.total_amount
      | some a => if a == 0 then o.total_amount else a) }

def mark_paid (s : State) (oid : Nat) (pm tid : String) (pamt : Option Int)
    (now : Nat) (gen : String) : State :=
  match findOrder s oid with
  | none => s
  | some o =>
    if o.status = OStatus.paid then s
    else
      let o' := paidRecord o pm tid pamt now gen
      invoiceGetOrCreate (updateOrder s oid (fun _ => o')) o'

/-- `Order.calculate_totals`: recompute `subtotal` from the order's items,
pin `tax_amount` at 0, and set `total = subtotal - discount + tax`. -/
def calculate_totals (s : State) (oid : Nat) : State :=
  match findOrder s oid with
  | none => s
  | some o =>
    let items := s.orderItems.filter (fun it => it.orderId == oid)
    let sub := (items.map (·.total_price)).sum
    updateOrder s oid (fun _ =>
      { o with subtotal := sub, tax_amount := 0,
               total_amount := sub - o.discount_amount + 0 })

/-- The `for item in ...: if item.course: get_or_create(...)` loop shared by
`grant_access_to_products` and the views' enrollment loops. -/
def enroll_items (uid : Nat) : State → List OrderItemRec → State
  | s, [] => s
  | s, it :: rest =>
    match it.course with
    | some cid => enroll_items uid (enrollGetOrCreate s uid cid) rest
    | none => enroll_items uid s rest

/-- `Order.grant_access_to_products`: for every item of the order that
references a course, get-or-create a `CourseEnrollment` for the order's
user. -/
def grant_access_to_products (s : State) (oid : Nat) : State :=
  match findOrder s oid with
  | none => s
  | some o =>
    enroll_items o.userId s (s.orderItems.filter (fun it => it.orderId == oid))

/-!  ## Entitlement resolver (`orders/utils.py`) -/

/-- A paid order whose legacy single-reference `post` field is this post
(`Order.objects.filter(user=user, post=post, status=PAID).exists()`). -/
def legacy_paid_post (s : State) (u : UserRef) (pid : Nat) : Bool :=
  s.orders.any (fun o => u.matches o.userId && refEq o.post pid && o.status.isPaid)

/-- A paid order of the user with some `OrderItem` referencing this post
(`Order.objects.filter(user=user, status=PAID, items__post=post).exists()`). -/
def item_paid_post (s : State) (u : UserRef) (pid : Nat) : Bool :=
  s.orders.any (fun o => u.matches o.userId && o.status.isPaid &&
    s.orderItems.any (fun it => it.orderId == o.id && refEq it.post pid))

/-- Legacy paid order referencing this course. -/
def legacy_paid_course (s : State) (u : UserRef) (cid : Nat) : Bool :=
  s.orders.any (fun o => u.matches o.userId && refEq o.course cid && o.status.isPaid)

/-- Paid order of the user that has an `OrderItem` referencing this course. -/
def item_paid_course (s : State) (u : UserRef) (cid : Nat) : Bool :=
  s.orders.any (fun o => u.matches o.userId && o.status.isPaid &&
    s.orderItems.any (fun it => it.orderId == o.id && refEq it.course cid))

/-- Enrollment-row existence for a possibly anonymous user. -/
def enrollment_for (s : State) (u : UserRef) (cid : Nat) : Bool :=
  s.enrollments.any (fun e => u.matches e.userId && e.courseId == cid)

/-- `user_has_post_access` (orders/utils.py 10-28): free posts are open to
everyone; otherwise requires authentication and a paid order via the legacy
field or via an order item. -/
def user_has_post_access (s : State) (u : UserRef) (p : Post) : Bool :=
  if p.is_free then true
  else if !u.is_authenticated then false
  else if legacy_paid_post s u p.id then true
  else item_paid_post s u p.id

/-- `user_has_course_access` (orders/utils.py 31-51): free courses are open
to everyone; otherwise requires authentication and then grants on an
existing `CourseEnrollment` row, a legacy paid order, or an order item of a
paid order. -/
def user_has_course_access (s : State) (u : UserRef) (c : Course) : Bool :=
  if c.is_free then true
  else if !u.is_authenticated then false
  else if enrollment_for s u c.id then true
  else if legacy_paid_course s u c.id then true
  else item_paid_course s u c.id

/-!  ## Specification-side entitlement predicates

These two definitions follow the words of the spec sentence
"`has_access` is true iff product is free, OR a paid Order exists that
references the product either through the legacy single-reference field or
through any OrderItem", to be compared with the source definitions above. -/

/-- Spec wording: a paid order links this user and post, through the legacy
field or through some order item. -/
def paid_order_links_post (s : State) (u : UserRef) (pid : Nat) : Bool :=
  legacy_paid_post s u pid || item_paid_post s u pid

/-- Spec wording: a paid order links this user and course. -/
def paid_order_links_course (s : State) (u : UserRef) (cid : Nat) : Bool :=
  legacy_paid_course s u cid || item_paid_course s u cid

/-- Spec wording for `has_access` on a post: free, or linked by a paid
order. -/
def has_post_access_spec (s : State) (u : UserRef) (p : Post) : Bool :=
  p.is_free || paid_order_links_post s u p.id

/-- Spec wording for `has_access` on a course: free, or linked by a paid
order. -/
def has_course_access_spec (s : State) (u : UserRef) (c : Course) : Bool :=
  c.is_free || paid_order_links_course s u c.id

/-!  ## Checkout (`orders/views.py` 185-263, POST branch)

The POST branch runs inside `transaction.atomic()`: billing name/email are
stripped and must be non-blank (otherwise nothing is persisted), totals are
computed from the current basket via `get_total_price`, one `Order` plus one
`OrderItem` per basket row are created, and any exception while building the
items (`get_product_type()` returning `None` makes the
`**{None: product}` kwargs expansion raise) rolls the whole transaction
back. The basket is NOT cleared here. `newOid` models the autoincrement
order id, `onum` the generated order number. -/

structure Billing where
  billing_name : String
  billing_email : String
  billing_address : String
deriving DecidableEq, Repr

/-- Python's `str.strip()`: remove leading and trailing whitespace. -/
def strip (x : String) : String :=
  String.mk (((x.data.dropWhile Char.isWhitespace).reverse.dropWhile
    Char.isWhitespace).reverse)

inductive CheckoutOutcome where
  | emptyCart
  | validationError
  | internalError
  | ok
deriving DecidableEq, Repr

/-- Build the order items for the basket rows, snapshotting each unit price
from the *current* catalog price (`basket_get_unit_price`); fails (models
the raised exception) when a basket row resolves to no product type. -/
def build_order_items (s : State) (oid : Nat) :
    List BasketItemRec → Option (List OrderItemRec)
  | [] => some []
  | bi :: rest =>
    match basket_get_product_type bi with
    | none => none
    | some pt =>
      match build_order_items s oid rest with
      | none => none
      | some its =>
        some (order_item_save s
          { orderId := oid
            post := if pt == "post" then bi.post else none
            course := if pt == "course" then bi.course else none
            service := if pt == "service" then bi.service else none
            product_name := basket_product_name s bi
            product_type := pt
            unit_price := basket_get_unit_price s bi
            quantity := bi.quantity
            total_price := 0 } :: its)

/-- The pending order record `checkout` creates: billing snapshot from the
stripped form fields, subtotal summed from the basket's current total
prices, tax and discount pinned at zero, `total = subtotal - discount +
tax`. -/
def checkoutOrder (s : State) (u : Nat) (b : Billing) (newOid : Nat)
    (onum : String) : OrderRec :=
  let subtotal := ((userBasket s u).map
    (fun bi => basket_get_total_price s bi)).sum
  let tax : Int := 0
  let discount : Int := 0
  { id := newOid, userId := u, order_number := onum,
    status := OStatus.pending,
    billing_name := strip b.billing_name,
    billing_email := strip b.billing_email,
    billing_address := strip b.billing_address,
    subtotal := subtotal, tax_amount := tax,
    discount_amount := discount,
    total_amount := subtotal - discount + tax,
    payment_method := "", payment_transaction_id := "",
    payment_amount := none, paid_at := none,
    product_type := "", post := none, course := none,
    service := none, amount := none, coinbase_charge_id := "" }

/-- `checkout` (POST): validate billing, then atomically create the order
and its items. -/
def checkout (s : State) (u : Nat) (b : Billing) (newOid : Nat)
    (onum : String) : CheckoutOutcome × State :=
  let basket := userBasket s u
  if basket.isEmpty then (.emptyCart, s)
  else
    if strip b.billing_name == "" || strip b.billing_email == "" then
      (.validationError, s)
    else
      match build_order_items s newOid basket with
      | none => (.internalError, s)
      | some items =>
        (.ok, { s with
          orders := s.orders ++ [checkoutOrder s u b newOid onum],
          orderItems := s.orderItems ++ items })

/-!  ## Payment view, demo/else branch (`orders/views.py` 266-367)

The view fetches the order by number and owning user, short-circuits on
already-paid and on statuses outside pending/failed, and in the demo branch
marks the order paid, grants access (twice: `grant_access_to_products` and
an explicit item loop), deletes EVERY basket row of the requesting user,
and sends the confirmation email (external, not modelled). Any exception in
the POST body rolls the transaction back and then sets the order's status
to `failed` outside the transaction; `fail` models whether such an
exception occurred. -/

inductive PayOutcome where
  | notFound
  | alreadyPaid
  | cannotProcess
  | okPaid
  | errorFailed
deriving DecidableEq, Repr

/-- Delete every basket row of a user
(`BasketItem.objects.filter(user=...).delete()`). -/
def clearBasket (s : State) (uid : Nat) : State :=
  { s with basketItems := s.basketItems.filter (fun b => !(b.userId == uid)) }

/-- `payment_view`, POST with a non-crypto payment method (the demo/else
branch). -/
def payment_view_demo (s : State) (u : Nat) (onum : String) (pm : String)
    (now : Nat) (gen : String) (fail : Bool) : PayOutcome × State :=
  match s.orders.find? (fun o => o.order_number == onum && o.userId == u) with
  | none => (.notFound, s)
  | some o =>
    if o.status = OStatus.paid then (.alreadyPaid, s)
    else if o.status ≠ OStatus.pending ∧ o.status ≠ OStatus.failed then
      (.cannotProcess, s)
    else if fail then
      (.errorFailed, setStatus s o.id OStatus.failed)
    else
      let s1 := mark_paid s o.id pm ("demo_txn_" ++ onum)
        (some o.total_amount) now gen
      let s2 := grant_access_to_products s1 o.id
      let s3 := enroll_items u s2
        (s2.orderItems.filter (fun it => it.orderId == o.id))
      (.okPaid, clearBasket s3 u)

/-!  ## Coinbase Commerce webhook (`orders/views.py` 451-531) and
signature verification (`orders/crypto_service.py` 108-132)

The HMAC-SHA256 keyed digest is abstracted as an explicit function
parameter `mac : secret → payload → hexdigest`; `hmac.compare_digest` is
constant-time string equality. JSON parsing plus the dictionary accesses
that extract the event are abstracted as a `parse` parameter returning the
extracted fields (or `none` for a parse failure, which the bare `except`
turns into a 500). -/

structure WebhookCfg where
  hasSecret : Bool
  secret : String
deriving DecidableEq, Repr

/-- `CoinbaseCommerceService.verify_webhook_signature`: false when no
webhook secret is configured, otherwise compare the header signature with
the keyed digest of the raw payload. -/
def verify_webhook_signature (mac : String → String → String)
    (cfg : WebhookCfg) (payload sig : String) : Bool :=
  if !cfg.hasSecret then false
  else sig == mac cfg.secret payload

/-- The fields the webhook handler extracts from a parsed event. -/
structure WebhookEvent where
  eventType : String
  chargeId : String
  orderNumber : Option String
  /-- `transaction_id` of each entry of `payments` (the handler uses the
  first; a missing key already defaulted to the charge id). -/
  payments : List String
deriving DecidableEq, Repr

/-- `coinbase_webhook`: returns the HTTP status code and the new state. -/
def coinbase_webhook (s : State) (cfg : WebhookCfg)
    (mac : String → String → String) (parse : String → Option WebhookEvent)
    (method : String) (payload sig : String) (now : Nat) (gen : String) :
    Nat × State :=
  if !(method == "POST") then (405, s)
  else if !verify_webhook_signature mac cfg payload sig then (400, s)
  else match parse payload with
  | none => (500, s)
  | some ev =>
    if ev.eventType == "charge:confirmed" then
      match ev.orderNumber with
      | none => (200, s)
      | some onum =>
        match s.orders.find? (fun o =>
            o.order_number == onum && o.coinbase_charge_id == ev.chargeId) with
        | none => (200, s)
        | some o =>
          if o.status = OStatus.paid then (200, s)
          else match ev.payments with
          | [] => (200, s)
          | tx :: _ =>
            let s1 := mark_paid s o.id "coinbase_commerce" tx
              (some o.total_amount) now gen
            let s2 := grant_access_to_products s1 o.id
            let s3 := enroll_items o.userId s2
              (s2.orderItems.filter (fun it => it.orderId == o.id))
            (200, clearBasket s3 o.userId)
    else if ev.eventType == "charge:failed" then
      match ev.orderNumber with
      | none => (200, s)
      | some onum =>
        match s.orders.find? (fun o =>
            o.order_number == onum && o.coinbase_charge_id == ev.chargeId) with
        | none => (200, s)
        | some o => (200, setStatus s o.id OStatus.failed)
    else (200, s)

/-!  ## Legacy single-product order creation (`orders/views.py` 618-689)

`create_order` resolves one product, short-circuits free content and
already-owned products, then creates an order (legacy reference fields
populated) plus one item, marks it paid with the defaults
(`payment_method='demo'`, generated transaction id, amount defaulting to
the total) and grants access. -/

inductive ProductRef where
  | post (id : Nat)
  | course (id : Nat)
  | service (id : Nat)
deriving DecidableEq, Repr

/-- `_get_price` (orders/views.py 595-603). -/
def get_price_of (s : State) : ProductRef → Int
  | .post pid => match findPost s pid with
    | some p => p.price
    | none => 0
  | .course cid => match findCourse s cid with
    | some c => c.price
    | none => 0
  | .service sid => match findService s sid with
    | some sv => servicePrice sv
    | none => 0

/-- `has_user_purchased_product` (orders/views.py 555-572): legacy
reference check, then the order-item join. -/
def has_user_purchased_product (s : State) (u : UserRef) : ProductRef → Bool
  | .post pid => legacy_paid_post s u pid || item_paid_post s u pid
  | .course cid => legacy_paid_course s u cid || item_paid_course s u cid
  | .service sid =>
    s.orders.any (fun o => u.matches o.userId && refEq o.service sid &&
      o.status.isPaid) ||
    s.orders.any (fun o => u.matches o.userId && o.status.isPaid &&
      s.orderItems.any (fun it => it.orderId == o.id && refEq it.service sid))

/-- `is_free` of a resolved product (`getattr(product, 'is_free', False)`:
services carry no such flag). -/
def product_is_free (s : State) : ProductRef → Bool
  | .post pid => match findPost s pid with
    | some p => p.is_free
    | none => false
  | .course cid => match findCourse s cid with
    | some c => c.is_free
    | none => false
  | .service _ => false

inductive LegacyOutcome where
  | freeContent
  | alreadyOwned
  | created
deriving DecidableEq, Repr

/-- `create_order` (POST): the transactional order-creation path, after
product resolution succeeded. `uname`/`uemail` are the requesting user's
full name and email (`get_full_name() or email`). -/
def create_order (s : State) (u : Nat) (uname uemail : String)
    (pr : ProductRef) (newOid : Nat) (onum : String) (now : Nat)
    (gen : String) : LegacyOutcome × State :=
  if product_is_free s pr then
    match pr with
    | .course cid => (.freeContent, enrollGetOrCreate s u cid)
    | _ => (.freeContent, s)
  else if has_user_purchased_product s (.auth u) pr then (.alreadyOwned, s)
  else
    let price := get_price_of s pr
    let order : OrderRec :=
      { id := newOid, userId := u, order_number := onum,
        status := OStatus.pending,
        billing_name := if uname == "" then uemail else uname,
        billing_email := uemail, billing_address := "",
        subtotal := price, tax_amount := 0, discount_amount := 0,
        total_amount := price,
        payment_method := "", payment_transaction_id := "",
        payment_amount := none, paid_at := none,
        product_type := (match pr with
          | .post _ => "post"
          | .course _ => "course"
          | .service _ => "service"),
        post := (match pr with | .post pid => some pid | _ => none),
        course := (match pr with | .course cid => some cid | _ => none),
        service := (match pr with | .service sid => some sid | _ => none),
        amount := some price, coinbase_charge_id := "" }
    let item := order_item_save s
      { orderId := newOid
        post := (match pr with | .post pid => some pid | _ => none)
        course := (match pr with | .course cid => some cid | _ => none)
        service := (match pr with | .service sid => some sid | _ => none)
        product_name := (match pr with
          | .post pid => match findPost s pid with
            | some p => p.title
            | none => "None"
          | .course cid => match findCourse s cid with
            | some c => c.title
            | none => "None"
          | .service sid => match findService s sid with
            | some sv => sv.title
            | none => "None")
        product_type := (match pr with
          | .post _ => "post"
          | .course _ => "course"
          | .service _ => "service")
        unit_price := price, quantity := 1, total_price := 0 }
    let s1 := { s with orders := s.orders ++ [order],
                       orderItems := s.orderItems ++ [item] }
    let s2 := mark_paid s1 newOid "demo" "" none now gen
    (.created, grant_access_to_products s2 newOid)

/-!  ## External catalog price mutation

The order core never mutates the catalog; these model an administrative
price change on a catalog row, used to state the snapshot claims. -/

/-- Change a course's catalog price. -/
def set_course_price (s : State) (cid : Nat) (p : Int) : State :=
  { s with courses := s.courses.map (fun c =>
      if c.id == cid then { c with price := p } else c) }

/-- Change a post's catalog price. -/
def set_post_price (s : State) (pid : Nat) (p : Int) : State :=
  { s with posts := s.posts.map (fun x =>
      if x.id == pid then { x with price := p } else x) }

/-- Change a service's prices. -/
def set_service_prices (s : State) (sid : Nat) (f g : Option Int) : State :=
  { s with services := s.services.map (fun sv =>
      if sv.id == sid then { sv with fixed_price := f, starting_price := g }
      else sv) }

/-!  ## Lesson view (`courses/views.py` 87-150)

`lesson_detail` computes course-level access via `user_has_course_access`,
lesson-level access as `lesson.is_free or has_course_access`, auto-enrolls
only users who hold course access, and persists resume progress for
enrolled users. The published-lesson ordering (`order`, `created_at`) is
abstracted by the order of `State.lessons`. -/

/-- The rendered context fields of the lesson view: `has_access` is access
to THIS lesson only, `has_course_access` to the full course. -/
structure LessonCtx where
  has_access : Bool
  has_course_access : Bool
  is_enrolled : Bool
deriving DecidableEq, Repr

/-- The published lessons of a course, in display order. -/
def courseLessons (s : State) (cid : Nat) : List Lesson :=
  s.lessons.filter (fun l => l.courseId == cid && l.is_published)

/-- Persist resume progress onto the user's enrollment row: update
`last_lesson` when it changed and `progress` to the integer percentage of
the lesson's position among the course's published lessons. -/
def update_progress (s : State) (uid : Nat) (c : Course) (l : Lesson) :
    State :=
  let lessonList := courseLessons s c.id
  match lessonList.findIdx? (fun x => x.id == l.id) with
  | none => s
  | some idx =>
    let total := lessonList.length
    let pct := ((idx + 1) * 100) / total
    { s with enrollments := s.enrollments.map (fun e =>
        if e.userId == uid && e.courseId == c.id then
          { e with last_lesson := some l.id,
                   progress := if total == 0 then e.progress else pct }
        else e) }

/-- `lesson_detail` on a resolved published course and lesson: returns the
access context and the resulting state. -/
def lesson_detail (s : State) (u : UserRef) (c : Course) (l : Lesson) :
    LessonCtx × State :=
  let hca := user_has_course_access s u c
  let hla := l.is_free || hca
  match u with
  | .anon => ({ has_access := hla, has_course_access := hca,
                is_enrolled := false }, s)
  | .auth uid =>
    let e0 := enrollment_for s (UserRef.auth uid) c.id
    let st1 := if !e0 && hca then enrollGetOrCreate s uid c.id else s
    let isEnr := if !e0 && hca then true else e0
    let st2 := if isEnr then update_progress st1 uid c l else st1
    ({ has_access := hla, has_course_access := hca,
       is_enrolled := isEnr }, st2)

/-!  ## The monetary invariant -/

/-- The spec's order-totals equation:
`total_amount = subtotal - discount_amount + tax_amount`. -/
def totalsOk (o : OrderRec) : Prop :=
  o.total_amount = o.subtotal - o.discount_amount + o.tax_amount

instance : DecidablePred totalsOk := fun o => by
  unfold totalsOk
  infer_instance

/-- Every persisted order satisfies the totals equation. -/
def ordersOk (s : State) : Prop :=
  ∀ o ∈ s.orders, totalsOk o

instance (s : State) : Decidable (ordersOk s) := by
  unfold ordersOk
  infer_instance

/-!  ## Concrete example scaffolding

Baseline records and small concrete states used to evaluate the settled
properties on explicit inputs. -/

/-- An order record with every field at its model default. -/
def baseOrder : OrderRec :=
  { id := 0, userId := 0, order_number := "", status := OStatus.pending,
    billing_name := "", billing_email := "", billing_address := "",
    subtotal := 0, tax_amount := 0, discount_amount := 0, total_amount := 0,
    payment_method := "", payment_transaction_id := "",
    payment_amount := none, paid_at := none, product_type := "",
    post := none, course := none, service := none, amount := none,
    coinbase_charge_id := "" }

/-- The empty database. -/
def emptyState : State :=
  { posts := [], courses := [], services := [], lessons := [], orders := [],
    orderItems := [], invoices := [], basketItems := [], enrollments := [] }

/-- A single pending order awaiting confirmation. -/
def exOrderPending : OrderRec :=
  { baseOrder with id := 1, userId := 7, order_number := "ORD-1",
                   subtotal := 8999, total_amount := 8999 }

/-- State holding just the pending order. -/
def exStatePending : State := { emptyState with orders := [exOrderPending] }

/-- A paid (non-free) course. -/
def exCoursePaid : Course :=
  { id := 3, title := "Django Mastery", is_free := false, price := 8999,
    is_published := true }

/-- A free published lesson inside the paid course. -/
def exLessonFree : Lesson :=
  { id := 31, courseId := 3, is_free := true, is_published := true }

/-- State where user 7 holds a `CourseEnrollment` for the paid course but
the order tables are empty: no paid order links user and course. -/
def exStateEnrolledNoOrder : State :=
  { emptyState with
    courses := [exCoursePaid]
    lessons := [exLessonFree]
    enrollments := [{ userId := 7, courseId := 3, progress := 0,
                      last_lesson := none }] }

/-- The amended entitlement wording for courses: free, or authenticated
with either an enrollment row or a linking paid order. -/
def has_course_access_amended_spec (s : State) (u : UserRef) (c : Course) :
    Bool :=
  c.is_free || (u.is_authenticated &&
    (enrollment_for s u c.id || paid_order_links_course s u c.id))

/-- State with the paid course and its free lesson but no enrollment and no
orders: user 9 holds no course-level entitlement of any kind. -/
def exStateNoEnroll : State :=
  { emptyState with courses := [exCoursePaid], lessons := [exLessonFree] }

/-- A paid order with a recorded Coinbase charge id. -/
def exOrderPaid : OrderRec :=
  { baseOrder with id := 2, userId := 7, order_number := "ORD-2",
                   status := OStatus.paid, subtotal := 8999,
                   total_amount := 8999, paid_at := some 4,
                   coinbase_charge_id := "CH-2" }

/-- State holding just the paid order. -/
def exStatePaid : State := { emptyState with orders := [exOrderPaid] }

/-- A failed order awaiting retry. -/
def exOrderFailed : OrderRec :=
  { baseOrder with id := 4, userId := 7, order_number := "ORD-4",
                   status := OStatus.failed, subtotal := 8999,
                   total_amount := 8999 }

/-- State holding just the failed order. -/
def exStateFailed : State := { emptyState with orders := [exOrderFailed] }

/-- A basket row of user 7 referencing the paid course. -/
def exBasketCourse : BasketItemRec :=
  { id := 1, userId := 7, post := none, course := some 3, service := none,
    quantity := 1 }

/-- State at the moment the course was added to the basket: catalog price
8999. -/
def exStateBasket : State :=
  { emptyState with courses := [exCoursePaid],
                    basketItems := [exBasketCourse] }

/-- A line item of the pending order, referencing the paid course. -/
def exOrderItemCourse : OrderItemRec :=
  { orderId := 1, post := none, course := some 3, service := none,
    product_name := "Django Mastery", product_type := "course",
    unit_price := 8999, quantity := 1, total_price := 8999 }

/-- A raw order item before `save` fills in its computed fields. -/
def exItemRaw : OrderItemRec :=
  { orderId := 1, post := none, course := some 3, service := none,
    product_name := "", product_type := "", unit_price := 8999,
    quantity := 2, total_price := 0 }

/-- A basket row of user 7 added after the order was created (a post not in
the order). -/
def exBasketExtra : BasketItemRec :=
  { id := 2, userId := 7, post := some 9, course := none, service := none,
    quantity := 1 }

/-- A basket row of a different user. -/
def exBasketOther : BasketItemRec :=
  { id := 5, userId := 8, post := none, course := some 3, service := none,
    quantity := 1 }

/-- Scenario for payment confirmation: user 7's pending order with one
course item, and a basket holding the ordered course, an unrelated later
addition, and another user's row. -/
def exStateDemo : State :=
  { emptyState with
    courses := [exCoursePaid]
    orders := [exOrderPending]
    orderItems := [exOrderItemCourse]
    basketItems := [exBasketCourse, exBasketExtra, exBasketOther] }

/-!  ## Helper lemmas -/

/-- A keyed UPDATE on a list: the first row matching the key is the updated
image of the previously first matching row. -/
theorem find_map_update (l : List OrderRec) (oid : Nat)
    (g : OrderRec → OrderRec)
    (hg : ∀ o, (o.id == oid) = true → ((g o).id == oid) = true) :
    (l.map (fun o => if o.id == oid then g o else o)).find?
        (fun o => o.id == oid)
      = (l.find? (fun o => o.id == oid)).map
        (fun o => if o.id == oid then g o else o) := by
  induction l with
  | nil => rfl
  | cons a l ih =>
    by_cases h : (a.id == oid) = true
    · have hga : ((g a).id == oid) = true := hg a h
      simp only [List.map_cons, List.find?_cons, if_pos h, hga, h,
        Option.map_some']
      simp [hga]
    · have hb : (a.id == oid) = false := by simpa using h
      simp only [List.map_cons, List.find?_cons, if_neg h, hb, ih]
      simp [hb]

theorem findOrder_updateOrder (s : State) (oid : Nat)
    (g : OrderRec → OrderRec)
    (hg : ∀ o, (o.id == oid) = true → ((g o).id == oid) = true)
    (o : OrderRec) (h : findOrder s oid = some o) :
    findOrder (updateOrder s oid g) oid = some (g o) := by
  unfold findOrder at h ⊢
  have hp := List.find?_some h
  simp only [] at hp
  unfold updateOrder
  simp only []
  rw [find_map_update _ _ _ hg, h]
  simp [hp]
  intro hn
  exact absurd (by simpa using hp) hn

/-- `findOrder` depends only on the stored orders. -/
theorem findOrder_congr (s t : State) (oid : Nat) (h : s.orders = t.orders) :
    findOrder s oid = findOrder t oid := by
  unfold findOrder
  rw [h]

theorem invoiceGetOrCreate_orders (s : State) (o : OrderRec) :
    (invoiceGetOrCreate s o).orders = s.orders := by
  unfold invoiceGetOrCreate
  split <;> rfl

theorem invoiceGetOrCreate_basketItems (s : State) (o : OrderRec) :
    (invoiceGetOrCreate s o).basketItems = s.basketItems := by
  unfold invoiceGetOrCreate
  split <;> rfl

theorem invoiceGetOrCreate_enrollments (s : State) (o : OrderRec) :
    (invoiceGetOrCreate s o).enrollments = s.enrollments := by
  unfold invoiceGetOrCreate
  split <;> rfl

theorem enrollGetOrCreate_orders (s : State) (uid cid : Nat) :
    (enrollGetOrCreate s uid cid).orders = s.orders := by
  unfold enrollGetOrCreate
  split <;> rfl

theorem enrollGetOrCreate_orderItems (s : State) (uid cid : Nat) :
    (enrollGetOrCreate s uid cid).orderItems = s.orderItems := by
  unfold enrollGetOrCreate
  split <;> rfl

theorem enrollGetOrCreate_invoices (s : State) (uid cid : Nat) :
    (enrollGetOrCreate s uid cid).invoices = s.invoices := by
  unfold enrollGetOrCreate
  split <;> rfl

theorem enrollGetOrCreate_basketItems (s : State) (uid cid : Nat) :
    (enrollGetOrCreate s uid cid).basketItems = s.basketItems := by
  unfold enrollGetOrCreate
  split <;> rfl

theorem enroll_items_orders (uid : Nat) (l : List OrderItemRec) (s : State) :
    (enroll_items uid s l).orders = s.orders := by
  induction l generalizing s with
  | nil => rfl
  | cons it rest ih =>
    unfold enroll_items
    cases it.course with
    | none => exact ih s
    | some cid => rw [ih, enrollGetOrCreate_orders]

theorem enroll_items_orderItems (uid : Nat) (l : List OrderItemRec)
    (s : State) : (enroll_items uid s l).orderItems = s.orderItems := by
  induction l generalizing s with
  | nil => rfl
  | cons it rest ih =>
    unfold enroll_items
    cases it.course with
    | none => exact ih s
    | some cid => rw [ih, enrollGetOrCreate_orderItems]

theorem enroll_items_invoices (uid : Nat) (l : List OrderItemRec)
    (s : State) : (enroll_items uid s l).invoices = s.invoices := by
  induction l generalizing s with
  | nil => rfl
  | cons it rest ih =>
    unfold enroll_items
    cases it.course with
    | none => exact ih s
    | some cid => rw [ih, enrollGetOrCreate_invoices]

theorem enroll_items_basketItems (uid : Nat) (l : List OrderItemRec)
    (s : State) : (enroll_items uid s l).basketItems = s.basketItems := by
  induction l generalizing s with
  | nil => rfl
  | cons it rest ih =>
    unfold enroll_items
    cases it.course with
    | none => exact ih s
    | some cid => rw [ih, enrollGetOrCreate_basketItems]

theorem grant_access_orders (s : State) (oid : Nat) :
    (grant_access_to_products s oid).orders = s.orders := by
  unfold grant_access_to_products
  cases findOrder s oid with
  | none => rfl
  | some o => exact enroll_items_orders _ _ _

theorem grant_access_basketItems (s : State) (oid : Nat) :
    (grant_access_to_products s oid).basketItems = s.basketItems := by
  unfold grant_access_to_products
  cases findOrder s oid with
  | none => rfl
  | some o => exact enroll_items_basketItems _ _ _

/-- `mark_paid` on an already-paid order is the identity (the guard at the
top of the method). -/
theorem mark_paid_of_paid (s : State) (oid : Nat) (pm tid : String)
    (pamt : Option Int) (now : Nat) (gen : String)
    (h : statusOf s oid = some OStatus.paid) :
    mark_paid s oid pm tid pamt now gen = s := by
  unfold statusOf at h
  unfold mark_paid
  cases hf : findOrder s oid with
  | none => rfl
  | some o =>
    rw [hf] at h
    simp only [Option.map_some'] at h
    have hs : o.status = OStatus.paid := Option.some_injective _ h
    simp [hs]

/-- The unpaid branch of `mark_paid`, spelled out. -/
theorem mark_paid_unpaid_eq (s : State) (oid : Nat) (o : OrderRec)
    (pm tid : String) (pamt : Option Int) (now : Nat) (gen : String)
    (hf : findOrder s oid = some o) (hnp : o.status ≠ OStatus.paid) :
    mark_paid s oid pm tid pamt now gen =
      invoiceGetOrCreate
        (updateOrder s oid (fun _ => paidRecord o pm tid pamt now gen))
        (paidRecord o pm tid pamt now gen) := by
  unfold mark_paid
  rw [hf]
  simp [hnp]

/-- After a non-trivial `mark_paid`, the order is stored as its paid
record. -/
theorem findOrder_mark_paid (s : State) (oid : Nat) (o : OrderRec)
    (pm tid : String) (pamt : Option Int) (now : Nat) (gen : String)
    (hf : findOrder s oid = some o) (hnp : o.status ≠ OStatus.paid) :
    findOrder (mark_paid s oid pm tid pamt now gen) oid =
      some (paidRecord o pm tid pamt now gen) := by
  rw [mark_paid_unpaid_eq s oid o pm tid pamt now gen hf hnp]
  have ho : findOrder
      (invoiceGetOrCreate
        (updateOrder s oid (fun _ => paidRecord o pm tid pamt now gen))
        (paidRecord o pm tid pamt now gen)) oid
      = findOrder
        (updateOrder s oid (fun _ => paidRecord o pm tid pamt now gen))
        oid :=
    findOrder_congr _ _ oid (invoiceGetOrCreate_orders _ _)
  rw [ho]
  have hf' : s.orders.find? (fun x => x.id == oid) = some o := hf
  have hp : (o.id == oid) = true := by
    have := List.find?_some hf'
    simpa using this
  exact findOrder_updateOrder s oid _ (fun x _ => by
    show ((paidRecord o pm tid pamt now gen).id == oid) = true
    simpa [paidRecord] using hp) o hf

/-!  ## C1 -/

/-- C1: `mark_paid` is idempotent. On an already-paid order it returns
immediately, changing nothing; starting from an unpaid order with no
invoice, a second `mark_paid` with arbitrary arguments changes nothing
further, exactly one invoice exists for the order, and `paid_at` keeps the
value set by the first call. -/
theorem mark_paid_idempotent (s : State) (oid : Nat) (o : OrderRec)
    (pm tid pm2 tid2 : String) (pamt pamt2 : Option Int)
    (now now2 : Nat) (gen gen2 : String) :
    (statusOf s oid = some OStatus.paid →
      mark_paid s oid pm tid pamt now gen = s)
    ∧ (findOrder s oid = some o → o.status ≠ OStatus.paid →
        invoiceCount s oid = 0 →
        mark_paid (mark_paid s oid pm tid pamt now gen) oid
            pm2 tid2 pamt2 now2 gen2
          = mark_paid s oid pm tid pamt now gen
        ∧ invoiceCount (mark_paid s oid pm tid pamt now gen) oid = 1
        ∧ paidAtOf (mark_paid s oid pm tid pamt now gen) oid
          = some (some now)) := by
  constructor
  · exact mark_paid_of_paid s oid pm tid pamt now gen
  · intro hf hnp hinv
    have hf' : s.orders.find? (fun x => x.id == oid) = some o := hf
    have hp : (o.id == oid) = true := by
      have := List.find?_some hf'
      simpa using this
    have hoid : o.id = oid := by simpa using hp
    have hfp := findOrder_mark_paid s oid o pm tid pamt now gen hf hnp
    have hstat : statusOf (mark_paid s oid pm tid pamt now gen) oid
        = some OStatus.paid := by
      unfold statusOf
      rw [hfp]
      rfl
    have hnil : s.invoices.filter (fun i => i.orderId == oid) = [] :=
      List.length_eq_zero.mp hinv
    have hnone : ∀ i ∈ s.invoices, ¬ (i.orderId == oid) = true :=
      List.filter_eq_nil_iff.mp hnil
    have heq := mark_paid_unpaid_eq s oid o pm tid pamt now gen hf hnp
    have hany : ((updateOrder s oid
          (fun _ => paidRecord o pm tid pamt now gen)).invoices.any
        (fun i => i.orderId == (paidRecord o pm tid pamt now gen).id))
        = false := by
      rw [List.any_eq_false]
      intro i hi
      have : i ∈ s.invoices := hi
      have hne := hnone i this
      show ¬ (i.orderId == o.id) = true
      rw [hoid]
      exact hne
    have hinvs : (mark_paid s oid pm tid pamt now gen).invoices
        = s.invoices ++ [({ orderId := o.id, subtotal := o.subtotal,
                            tax_amount := o.tax_amount,
                            discount_amount := 0,
                            amount := o.total_amount } : InvoiceRec)] := by
      rw [heq]
      unfold invoiceGetOrCreate
      rw [hany]
      simp [updateOrder, paidRecord]
    refine ⟨mark_paid_of_paid _ oid pm2 tid2 pamt2 now2 gen2 hstat, ?_, ?_⟩
    · unfold invoiceCount
      rw [hinvs, List.filter_append, hnil]
      simp [hp]
    · unfold paidAtOf
      rw [hfp]
      rfl

/-- C1 witness: the concrete pending order, confirmed twice with different
arguments. -/
theorem mark_paid_idempotent_witness :
    (findOrder exStatePending 1 = some exOrderPending
      ∧ exOrderPending.status ≠ OStatus.paid
      ∧ invoiceCount exStatePending 1 = 0)
    ∧ (mark_paid (mark_paid exStatePending 1 "demo" "t" none 5 "g") 1
          "card" "u" (some 7) 9 "h"
        = mark_paid exStatePending 1 "demo" "t" none 5 "g"
      ∧ invoiceCount (mark_paid exStatePending 1 "demo" "t" none 5 "g") 1 = 1
      ∧ paidAtOf (mark_paid exStatePending 1 "demo" "t" none 5 "g") 1
        = some (some 5)) :=
  ⟨⟨by decide, by decide, by decide⟩,
    (mark_paid_idempotent exStatePending 1 exOrderPending
      "demo" "t" "card" "u" none (some 7) 5 9 "g" "h").2
      (by decide) (by decide) (by decide)⟩

/-!  ## C6 -/

/-- C6: a webhook request whose HMAC signature does not verify against the
raw payload is rejected with HTTP 400 and the state is unchanged: no side
effects, no order state change. -/
theorem webhook_bad_signature_rejected (s : State) (cfg : WebhookCfg)
    (mac : String → String → String) (parse : String → Option WebhookEvent)
    (payload sig : String) (now : Nat) (gen : String)
    (hbad : verify_webhook_signature mac cfg payload sig = false) :
    coinbase_webhook s cfg mac parse "POST" payload sig now gen = (400, s) := by
  unfold coinbase_webhook
  rw [hbad]
  rfl

/-- C6 witness: a concrete state and a signature that fails verification is
rejected with 400, leaving the pending order untouched. -/
theorem webhook_bad_signature_rejected_witness :
    verify_webhook_signature (fun _ _ => "good") ⟨true, "k"⟩ "payload" "bad"
        = false
    ∧ coinbase_webhook exStatePending ⟨true, "k"⟩ (fun _ _ => "good")
        (fun _ => none) "POST" "payload" "bad" 5 "g" = (400, exStatePending) :=
  ⟨by decide,
    webhook_bad_signature_rejected exStatePending ⟨true, "k"⟩
      (fun _ _ => "good") (fun _ => none) "payload" "bad" 5 "g" (by decide)⟩

/-!  ## C2 -/

theorem legacy_paid_post_anon (s : State) (pid : Nat) :
    legacy_paid_post s UserRef.anon pid = false := by
  unfold legacy_paid_post
  rw [List.any_eq_false]
  intro o ho
  simp [UserRef.matches]

theorem item_paid_post_anon (s : State) (pid : Nat) :
    item_paid_post s UserRef.anon pid = false := by
  unfold item_paid_post
  rw [List.any_eq_false]
  intro o ho
  simp [UserRef.matches]

theorem legacy_paid_course_anon (s : State) (cid : Nat) :
    legacy_paid_course s UserRef.anon cid = false := by
  unfold legacy_paid_course
  rw [List.any_eq_false]
  intro o ho
  simp [UserRef.matches]

theorem item_paid_course_anon (s : State) (cid : Nat) :
    item_paid_course s UserRef.anon cid = false := by
  unfold item_paid_course
  rw [List.any_eq_false]
  intro o ho
  simp [UserRef.matches]

/-- C2 counterexample: in a state where user 7 has a `CourseEnrollment` row
for the paid course and the order tables are empty, `user_has_course_access`
returns true although no paid order links user and course — refuting the
claimed "if and only if a paid Order links". -/
theorem course_access_without_paid_order :
    exCoursePaid.is_free = false
    ∧ paid_order_links_course exStateEnrolledNoOrder (UserRef.auth 7)
        exCoursePaid.id = false
    ∧ user_has_course_access exStateEnrolledNoOrder (UserRef.auth 7)
        exCoursePaid = true := by
  decide

/-- C2 amended: `user_has_post_access` equals the claimed predicate exactly
(free, or a paid order links user and post, legacy or line item);
`user_has_course_access` equals the claimed predicate amended with the
enrollment-row path: free, or authenticated with either an enrollment row
or a linking paid order. -/
theorem entitlement_characterization (s : State) (u : UserRef) (p : Post)
    (c : Course) :
    user_has_post_access s u p = has_post_access_spec s u p
    ∧ user_has_course_access s u c = has_course_access_amended_spec s u c := by
  constructor
  · unfold user_has_post_access has_post_access_spec paid_order_links_post
    by_cases hfree : p.is_free
    · simp [hfree]
    · cases u with
      | anon =>
        simp [hfree, UserRef.is_authenticated, legacy_paid_post_anon,
          item_paid_post_anon]
      | auth uid =>
        simp only [hfree, UserRef.is_authenticated, Bool.not_true,
          if_false, Bool.false_eq_true, if_neg]
        cases h1 : legacy_paid_post s (UserRef.auth uid) p.id <;> simp [h1]
  · unfold user_has_course_access has_course_access_amended_spec
      paid_order_links_course
    by_cases hfree : c.is_free
    · simp [hfree]
    · cases u with
      | anon =>
        simp [hfree, UserRef.is_authenticated, legacy_paid_course_anon,
          item_paid_course_anon]
      | auth uid =>
        simp only [hfree, UserRef.is_authenticated, Bool.not_true,
          if_false, Bool.false_eq_true, if_neg]
        cases he : enrollment_for s (UserRef.auth uid) c.id <;>
          cases h1 : legacy_paid_course s (UserRef.auth uid) c.id <;>
            simp [he, h1]

/-!  ## C3 -/

/-- C3 counterexample: user 7 is authenticated, the course is paid, no paid
order links user and course, and the viewed lesson is published and free —
the claim's hypotheses — yet the lesson view reports
`has_course_access = true`, because a `CourseEnrollment` row exists without
any backing order. -/
theorem lesson_view_course_access_leak :
    exCoursePaid.is_free = false
    ∧ paid_order_links_course exStateEnrolledNoOrder (UserRef.auth 7)
        exCoursePaid.id = false
    ∧ exLessonFree.is_free = true
    ∧ exLessonFree.is_published = true
    ∧ (lesson_detail exStateEnrolledNoOrder (UserRef.auth 7) exCoursePaid
        exLessonFree).1.has_course_access = true := by
  decide

/-- C3 amended: for an authenticated user with no course-level entitlement
(course not free, no linking paid order) *and no pre-existing enrollment
row*, viewing a published free lesson of the course grants lesson access,
denies course access, and leaves the state — in particular the enrollment
table — unchanged. -/
theorem lesson_view_separation (s : State) (uid : Nat) (c : Course)
    (l : Lesson)
    (hfree : c.is_free = false)
    (hleg : legacy_paid_course s (UserRef.auth uid) c.id = false)
    (hitem : item_paid_course s (UserRef.auth uid) c.id = false)
    (henr : enrollment_for s (UserRef.auth uid) c.id = false)
    (hlf : l.is_free = true) (hlp : l.is_published = true)
    (hcp : c.is_published = true) :
    (lesson_detail s (UserRef.auth uid) c l).1.has_access = true
    ∧ (lesson_detail s (UserRef.auth uid) c l).1.has_course_access = false
    ∧ (lesson_detail s (UserRef.auth uid) c l).2 = s := by
  have hca : user_has_course_access s (UserRef.auth uid) c = false := by
    unfold user_has_course_access
    simp [hfree, UserRef.is_authenticated, henr, hleg, hitem]
  unfold lesson_detail
  simp [hca, henr, hlf]

/-- C3 witness: user 9 with no entitlement and no enrollment viewing the
free lesson of the paid course. -/
theorem lesson_view_separation_witness :
    (exCoursePaid.is_free = false
      ∧ legacy_paid_course exStateNoEnroll (UserRef.auth 9)
          exCoursePaid.id = false
      ∧ item_paid_course exStateNoEnroll (UserRef.auth 9)
          exCoursePaid.id = false
      ∧ enrollment_for exStateNoEnroll (UserRef.auth 9)
          exCoursePaid.id = false)
    ∧ ((lesson_detail exStateNoEnroll (UserRef.auth 9) exCoursePaid
          exLessonFree).1.has_access = true
      ∧ (lesson_detail exStateNoEnroll (UserRef.auth 9) exCoursePaid
          exLessonFree).1.has_course_access = false
      ∧ (lesson_detail exStateNoEnroll (UserRef.auth 9) exCoursePaid
          exLessonFree).2 = exStateNoEnroll) :=
  ⟨⟨by decide, by decide, by decide, by decide⟩,
    lesson_view_separation exStateNoEnroll 9 exCoursePaid exLessonFree
      (by decide) (by decide) (by decide) (by decide) (by decide) (by decide)
      (by decide)⟩

/-!  ## C4 -/

/-- Exhaustive case analysis of `checkout`: it either rejects leaving the
state unchanged, or atomically appends the new order and its built items. -/
theorem checkout_spec (s : State) (u : Nat) (b : Billing) (n : Nat)
    (onum : String) :
    (checkout s u b n onum = (CheckoutOutcome.emptyCart, s)
      ∧ (userBasket s u).isEmpty = true)
    ∨ (checkout s u b n onum = (CheckoutOutcome.validationError, s)
      ∧ (strip b.billing_name == "" || strip b.billing_email == "") = true)
    ∨ (checkout s u b n onum = (CheckoutOutcome.internalError, s)
      ∧ build_order_items s n (userBasket s u) = none)
    ∨ (∃ its, build_order_items s n (userBasket s u) = some its
      ∧ (strip b.billing_name == "" || strip b.billing_email == "") = false
      ∧ checkout s u b n onum = (CheckoutOutcome.ok,
          { s with orders := s.orders ++ [checkoutOrder s u b n onum],
                   orderItems := s.orderItems ++ its })) := by
  unfold checkout
  by_cases hemp : (userBasket s u).isEmpty = true
  · exact Or.inl ⟨by simp [hemp], hemp⟩
  · have hemp' : (userBasket s u).isEmpty = false := by
      simpa using hemp
    by_cases hval : (strip b.billing_name == "" || strip b.billing_email == "")
        = true
    · exact Or.inr (Or.inl ⟨by simp [hemp', hval], hval⟩)
    · have hval' : (strip b.billing_name == "" || strip b.billing_email == "")
          = false := by simpa using hval
      cases hb : build_order_items s n (userBasket s u) with
      | none =>
        exact Or.inr (Or.inr (Or.inl ⟨by simp [hemp', hval', hb], rfl⟩))
      | some its =>
        exact Or.inr (Or.inr (Or.inr
          ⟨its, rfl, hval', by simp [hemp', hval', hb]⟩))

/-- `order_item_save` never changes `unit_price`. -/
theorem order_item_save_unit_price (s : State) (it : OrderItemRec) :
    (order_item_save s it).unit_price = it.unit_price := rfl

/-- The items built at checkout carry, one for one, the basket rows'
*current* catalog unit prices. -/
theorem build_order_items_prices (s : State) (oid : Nat)
    (l : List BasketItemRec) (its : List OrderItemRec)
    (h : build_order_items s oid l = some its) :
    its.map (·.unit_price) = l.map (fun bi => basket_get_unit_price s bi) := by
  induction l generalizing its with
  | nil =>
    unfold build_order_items at h
    simp only [Option.some_inj] at h
    subst h
    rfl
  | cons bi rest ih =>
    unfold build_order_items at h
    cases hpt : basket_get_product_type bi with
    | none => rw [hpt] at h; exact absurd h (by simp)
    | some pt =>
      rw [hpt] at h
      cases hr : build_order_items s oid rest with
      | none => rw [hr] at h; exact absurd h (by simp)
      | some its' =>
        rw [hr] at h
        simp only [Option.some_inj] at h
        subst h
        simp only [List.map_cons, order_item_save_unit_price]
        rw [ih its' hr]

/-- C4 counterexample: user 7 added the paid course to the basket while its
catalog price was 8999; the price is then changed to 12999 before checkout,
and the created order item's `unit_price` is 12999 — the basket holds no
snapshot and checkout re-queries the catalog. -/
theorem checkout_requeries_catalog_price :
    basket_get_unit_price exStateBasket exBasketCourse = 8999
    ∧ (checkout (set_course_price exStateBasket 3 12999) 7
        ⟨"Ada", "ada@example.com", ""⟩ 100 "ORD-100").1 = CheckoutOutcome.ok
    ∧ ((checkout (set_course_price exStateBasket 3 12999) 7
        ⟨"Ada", "ada@example.com", ""⟩ 100 "ORD-100").2.orderItems.map
          (·.unit_price)) = [12999] := by
  decide

/-- C4 amended: each OrderItem created by checkout copies its `unit_price`
from `BasketItem.get_unit_price` evaluated at checkout time, i.e. from the
catalog item's price current at that instant (the basket stores no earlier
snapshot), so a catalog price change between basket-add and checkout DOES
change the resulting unit price. -/
theorem checkout_unit_prices_are_current (s : State) (u : Nat) (b : Billing)
    (n : Nat) (onum : String)
    (hok : (checkout s u b n onum).1 = CheckoutOutcome.ok) :
    ∃ its, (checkout s u b n onum).2.orderItems = s.orderItems ++ its
      ∧ its.map (·.unit_price)
        = (userBasket s u).map (fun bi => basket_get_unit_price s bi) := by
  rcases checkout_spec s u b n onum with ⟨h, _⟩ | ⟨h, _⟩ | ⟨h, _⟩ |
    ⟨its, hb, _, h⟩
  · rw [h] at hok; exact absurd hok (by simp)
  · rw [h] at hok; exact absurd hok (by simp)
  · rw [h] at hok; exact absurd hok (by simp)
  · refine ⟨its, ?_, build_order_items_prices s n (userBasket s u) its hb⟩
    rw [h]

/-- C4 amended-theorem witness: the concrete post-price-change checkout
succeeds and its single item carries the current (changed) catalog price. -/
theorem checkout_unit_prices_are_current_witness :
    ((checkout (set_course_price exStateBasket 3 12999) 7
        ⟨"Ada", "ada@example.com", ""⟩ 100 "ORD-100").1 = CheckoutOutcome.ok)
    ∧ ∃ its, (checkout (set_course_price exStateBasket 3 12999) 7
          ⟨"Ada", "ada@example.com", ""⟩ 100 "ORD-100").2.orderItems
        = (set_course_price exStateBasket 3 12999).orderItems ++ its
      ∧ its.map (·.unit_price)
        = (userBasket (set_course_price exStateBasket 3 12999) 7).map
            (fun bi =>
              basket_get_unit_price (set_course_price exStateBasket 3 12999)
                bi) :=
  ⟨by decide,
    checkout_unit_prices_are_current (set_course_price exStateBasket 3 12999)
      7 ⟨"Ada", "ada@example.com", ""⟩ 100 "ORD-100" (by decide)⟩

/-!  ## C5 -/

/-- Every stored order carrying the updated id has the written status after
a keyed status UPDATE. -/
theorem setStatus_status (s : State) (oid : Nat) (st : OStatus)
    (x : OrderRec) (hx : x ∈ (setStatus s oid st).orders)
    (hid : x.id = oid) : x.status = st := by
  unfold setStatus updateOrder at hx
  simp only [List.mem_map] at hx
  obtain ⟨y, hy, hxy⟩ := hx
  by_cases h : (y.id == oid) = true
  · rw [if_pos h] at hxy
    rw [← hxy]
  · rw [if_neg h] at hxy
    subst hxy
    exact absurd (by simpa using hid) h

/-- Every stored order carrying the updated id equals the written record
after a constant keyed UPDATE. -/
theorem mem_updateOrder_const (s : State) (oid : Nat) (o' : OrderRec)
    (x : OrderRec) (hx : x ∈ (updateOrder s oid (fun _ => o')).orders)
    (hid : x.id = oid) : x = o' := by
  unfold updateOrder at hx
  simp only [List.mem_map] at hx
  obtain ⟨y, hy, hxy⟩ := hx
  by_cases h : (y.id == oid) = true
  · rw [if_pos h] at hxy
    exact hxy.symm
  · rw [if_neg h] at hxy
    subst hxy
    exact absurd (by simpa using hid) h

theorem clearBasket_orders (s : State) (uid : Nat) :
    (clearBasket s uid).orders = s.orders := rfl

/-- C5 counterexample: an order in status `paid` that receives a
`charge:failed` webhook with a valid signature and matching order
number/charge id is moved to status `failed` — an automated path out of
`paid`, refuting "paid is never left except by the administrative refund"
and "status is set to failed only from pending". -/
theorem webhook_failed_demotes_paid_order :
    statusOf exStatePaid 2 = some OStatus.paid
    ∧ (coinbase_webhook exStatePaid ⟨true, "k"⟩ (fun _ _ => "S")
        (fun _ => some ⟨"charge:failed", "CH-2", some "ORD-2", []⟩)
        "POST" "p" "S" 5 "g").1 = 200
    ∧ statusOf (coinbase_webhook exStatePaid ⟨true, "k"⟩ (fun _ _ => "S")
        (fun _ => some ⟨"charge:failed", "CH-2", some "ORD-2", []⟩)
        "POST" "p" "S" 5 "g").2 2 = some OStatus.failed := by
  decide

/-- C5 amended: the transitions the code actually performs.
(1) A `charge:failed` webhook on a matched order sets its status to
`failed` from ANY current status (including `paid`).
(2) The payment view's demo branch marks an order paid from `pending` or
from `failed` (a retry goes `failed → paid` directly, not through
`pending`).
(3) `mark_paid` never changes an already-paid order. -/
theorem order_status_transitions :
    (∀ (s : State) (cfg : WebhookCfg) (mac : String → String → String)
        (parse : String → Option WebhookEvent) (payload sig : String)
        (now : Nat) (gen : String) (ev : WebhookEvent) (onum : String)
        (o : OrderRec),
      verify_webhook_signature mac cfg payload sig = true →
      parse payload = some ev →
      ev.eventType = "charge:failed" →
      ev.orderNumber = some onum →
      s.orders.find? (fun x => x.order_number == onum
        && x.coinbase_charge_id == ev.chargeId) = some o →
      ∀ x ∈ (coinbase_webhook s cfg mac parse "POST" payload sig
          now gen).2.orders, x.id = o.id → x.status = OStatus.failed)
    ∧ (∀ (s : State) (u : Nat) (onum pm : String) (now : Nat) (gen : String)
        (o : OrderRec),
      s.orders.find? (fun x => x.order_number == onum && x.userId == u)
        = some o →
      findOrder s o.id = some o →
      (o.status = OStatus.pending ∨ o.status = OStatus.failed) →
      (payment_view_demo s u onum pm now gen false).1 = PayOutcome.okPaid
      ∧ ∀ x ∈ (payment_view_demo s u onum pm now gen false).2.orders,
          x.id = o.id → x.status = OStatus.paid)
    ∧ (∀ (s : State) (oid : Nat) (pm tid : String) (pamt : Option Int)
        (now : Nat) (gen : String),
      statusOf s oid = some OStatus.paid →
      mark_paid s oid pm tid pamt now gen = s) := by
  refine ⟨?_, ?_, ?_⟩
  · intro s cfg mac parse payload sig now gen ev onum o hver hparse hevt
      honum hfind x hx hid
    have hne : (("charge:failed" : String) == "charge:confirmed") = false :=
      by decide
    have heq : (("charge:failed" : String) == "charge:failed") = true :=
      by decide
    have hcw : coinbase_webhook s cfg mac parse "POST" payload sig now gen
        = (200, setStatus s o.id OStatus.failed) := by
      unfold coinbase_webhook
      rw [hver, hparse]
      simp only [hevt, hne, heq, honum, Bool.not_true, Bool.false_eq_true,
        if_false, if_true]
      simp [hfind]
    rw [hcw] at hx
    exact setStatus_status s o.id OStatus.failed x hx hid
  · intro s u onum pm now gen o hfind hfid hst
    have hnp : o.status ≠ OStatus.paid := by
      rcases hst with h | h <;> rw [h] <;> intro hc <;> exact absurd hc
        (by decide)
    have hproc : ¬ (o.status ≠ OStatus.pending ∧ o.status ≠ OStatus.failed)
        := by
      rcases hst with h | h <;> rw [h] <;> intro hc
      · exact hc.1 rfl
      · exact hc.2 rfl
    have hpay : payment_view_demo s u onum pm now gen false
        = (PayOutcome.okPaid,
          clearBasket
            (enroll_items u (grant_access_to_products
                (mark_paid s o.id pm ("demo_txn_" ++ onum)
                  (some o.total_amount) now gen) o.id)
              ((grant_access_to_products
                  (mark_paid s o.id pm ("demo_txn_" ++ onum)
                    (some o.total_amount) now gen) o.id).orderItems.filter
                (fun it => it.orderId == o.id))) u) := by
      unfold payment_view_demo
      rw [hfind]
      simp [hnp, hproc]
    constructor
    · rw [hpay]
    · intro x hx hid
      rw [hpay] at hx
      rw [clearBasket_orders, enroll_items_orders, grant_access_orders]
        at hx
      rw [mark_paid_unpaid_eq s o.id o pm ("demo_txn_" ++ onum)
        (some o.total_amount) now gen hfid hnp] at hx
      rw [invoiceGetOrCreate_orders] at hx
      have := mem_updateOrder_const s o.id
        (paidRecord o pm ("demo_txn_" ++ onum) (some o.total_amount) now gen)
        x hx hid
      rw [this]
      rfl
  · intro s oid pm tid pamt now gen h
    exact mark_paid_of_paid s oid pm tid pamt now gen h

/-- C5 amended-theorem witness: the paid order demoted by a concrete
`charge:failed` webhook; the failed order retried to `paid` by the demo
payment view; `mark_paid` a no-op on the paid order. -/
theorem order_status_transitions_witness :
    (∀ x ∈ (coinbase_webhook exStatePaid ⟨true, "k"⟩ (fun _ _ => "S")
        (fun _ => some ⟨"charge:failed", "CH-2", some "ORD-2", []⟩)
        "POST" "p" "S" 5 "g").2.orders,
      x.id = exOrderPaid.id → x.status = OStatus.failed)
    ∧ ((payment_view_demo exStateFailed 7 "ORD-4" "demo" 5 "g" false).1
        = PayOutcome.okPaid
      ∧ ∀ x ∈ (payment_view_demo exStateFailed 7 "ORD-4" "demo" 5 "g"
          false).2.orders,
          x.id = exOrderFailed.id → x.status = OStatus.paid)
    ∧ mark_paid exStatePaid 2 "demo" "" none 9 "h" = exStatePaid :=
  ⟨order_status_transitions.1 exStatePaid ⟨true, "k"⟩ (fun _ _ => "S")
      (fun _ => some ⟨"charge:failed", "CH-2", some "ORD-2", []⟩)
      "p" "S" 5 "g" ⟨"charge:failed", "CH-2", some "ORD-2", []⟩ "ORD-2"
      exOrderPaid (by decide) rfl rfl rfl (by decide),
    order_status_transitions.2.1 exStateFailed 7 "ORD-4" "demo" 5 "g"
      exOrderFailed (by decide) (by decide) (Or.inr rfl),
    order_status_transitions.2.2 exStatePaid 2 "demo" "" none 9 "h"
      (by decide)⟩

/-!  ## C7 -/

theorem ordersOk_of_orders_eq (s t : State) (h : s.orders = t.orders)
    (hs : ordersOk s) : ordersOk t := by
  intro o ho
  exact hs o (by rw [h]; exact ho)

/-- A keyed UPDATE preserves the totals invariant when the update does. -/
theorem ordersOk_updateOrder (s : State) (oid : Nat) (g : OrderRec → OrderRec)
    (h : ordersOk s) (hg : ∀ o ∈ s.orders, totalsOk o → totalsOk (g o)) :
    ordersOk (updateOrder s oid g) := by
  intro x hx
  unfold updateOrder at hx
  simp only [List.mem_map] at hx
  obtain ⟨y, hy, hxy⟩ := hx
  by_cases hb : (y.id == oid) = true
  · rw [if_pos hb] at hxy
    rw [← hxy]
    exact hg y hy (h y hy)
  · rw [if_neg hb] at hxy
    rw [← hxy]
    exact h y hy

/-- `mark_paid` preserves the totals invariant: it never touches the
monetary fields. -/
theorem ordersOk_mark_paid (s : State) (oid : Nat) (pm tid : String)
    (pamt : Option Int) (now : Nat) (gen : String) (h : ordersOk s) :
    ordersOk (mark_paid s oid pm tid pamt now gen) := by
  unfold mark_paid
  cases hf : findOrder s oid with
  | none => exact h
  | some o =>
    by_cases hp : o.status = OStatus.paid
    · simp only [hp, if_true]
      exact h
    · simp only [hp, if_false]
      apply ordersOk_of_orders_eq
        (updateOrder s oid (fun _ => paidRecord o pm tid pamt now gen))
      · exact (invoiceGetOrCreate_orders _ _).symm
      · exact ordersOk_updateOrder s oid _ h (fun x hx ht => by
          have ho : totalsOk o :=
            h o (List.mem_of_find?_eq_some hf)
          show totalsOk (paidRecord o pm tid pamt now gen)
          unfold totalsOk at ho ⊢
          simpa [paidRecord] using ho)

/-- C7: the totals equation `total = subtotal - discount + tax` holds for
every order created by `checkout` and by the legacy `create_order`, and is
preserved by `mark_paid`, `calculate_totals` and
`grant_access_to_products`. -/
theorem order_totals_invariant (s : State) (u : Nat) (b : Billing)
    (n : Nat) (onum uname uemail : String) (pr : ProductRef) (oid : Nat)
    (pm tid : String) (pamt : Option Int) (now : Nat) (gen : String)
    (h : ordersOk s) :
    ordersOk (checkout s u b n onum).2
    ∧ ordersOk (create_order s u uname uemail pr n onum now gen).2
    ∧ ordersOk (mark_paid s oid pm tid pamt now gen)
    ∧ ordersOk (calculate_totals s oid)
    ∧ ordersOk (grant_access_to_products s oid) := by
  refine ⟨?_, ?_, ordersOk_mark_paid s oid pm tid pamt now gen h, ?_, ?_⟩
  · rcases checkout_spec s u b n onum with ⟨hc, _⟩ | ⟨hc, _⟩ | ⟨hc, _⟩ |
      ⟨its, hb2, _, hc⟩
    · rw [hc]; exact h
    · rw [hc]; exact h
    · rw [hc]; exact h
    · rw [hc]
      intro o ho
      simp only [List.mem_append, List.mem_singleton] at ho
      rcases ho with ho | ho
      · exact h o ho
      · rw [ho]
        unfold totalsOk checkoutOrder
        simp
  · unfold create_order
    by_cases hfree : product_is_free s pr = true
    · simp only [hfree, if_true]
      cases pr with
      | post pid => exact h
      | course cid =>
        exact ordersOk_of_orders_eq s _ (enrollGetOrCreate_orders _ _ _).symm
          h
      | service sid => exact h
    · simp only [hfree, if_false]
      by_cases howned : has_user_purchased_product s (UserRef.auth u) pr
          = true
      · simp only [howned, if_true]
        exact h
      · simp only [howned, if_false]
        apply ordersOk_of_orders_eq _ _ (grant_access_orders _ _).symm
        apply ordersOk_mark_paid
        intro o ho
        simp only [List.mem_append, List.mem_singleton] at ho
        rcases ho with ho | ho
        · exact h o ho
        · rw [ho]
          unfold totalsOk
          simp
  · unfold calculate_totals
    cases hf : findOrder s oid with
    | none => exact h
    | some o =>
      apply ordersOk_updateOrder s oid _ h
      intro x hx ht
      unfold totalsOk
      simp
  · exact ordersOk_of_orders_eq s _ (grant_access_orders _ _).symm h

/-- C7 witness: the invariant holds on the concrete pending order and after
confirming it. -/
theorem order_totals_invariant_witness :
    ordersOk exStatePending
    ∧ ordersOk (mark_paid exStatePending 1 "demo" "" none 5 "g")
    ∧ ordersOk (checkout exStatePending 7 ⟨"Ada", "a@b.c", ""⟩ 100
        "ORD-100").2 :=
  ⟨by decide,
    (order_totals_invariant exStatePending 7 ⟨"Ada", "a@b.c", ""⟩ 100
      "ORD-100" "Ada" "a@b.c" (ProductRef.course 3) 1 "demo" "" none 5 "g"
      (by decide)).2.2.1,
    (order_totals_invariant exStatePending 7 ⟨"Ada", "a@b.c", ""⟩ 100
      "ORD-100" "Ada" "a@b.c" (ProductRef.course 3) 1 "demo" "" none 5 "g"
      (by decide)).1⟩

/-!  ## C8 -/

/-- Every item built at checkout satisfies the line-total law. -/
theorem build_order_items_total (s : State) (oid : Nat)
    (l : List BasketItemRec) (its : List OrderItemRec)
    (h : build_order_items s oid l = some its) :
    ∀ x ∈ its, x.total_price = x.unit_price * (x.quantity : Int) := by
  induction l generalizing its with
  | nil =>
    unfold build_order_items at h
    simp only [Option.some_inj] at h
    subst h
    intro x hx
    exact absurd hx (List.not_mem_nil x)
  | cons bi rest ih =>
    unfold build_order_items at h
    cases hpt : basket_get_product_type bi with
    | none => rw [hpt] at h; exact absurd h (by simp)
    | some pt =>
      rw [hpt] at h
      cases hr : build_order_items s oid rest with
      | none => rw [hr] at h; exact absurd h (by simp)
      | some its' =>
        rw [hr] at h
        simp only [Option.some_inj] at h
        subst h
        intro x hx
        rcases List.mem_cons.mp hx with hx | hx
        · rw [hx]
          rfl
        · exact ih its' hr x hx

/-- C8: catalog price changes (on posts, courses and services) leave every
stored OrderItem untouched; `OrderItem.save` preserves `unit_price` and
always sets `total_price = unit_price × quantity`; and every order item in
the state after a checkout is either pre-existing or satisfies the
line-total law. -/
theorem order_item_price_snapshot (s : State) (cid pid sid : Nat) (p : Int)
    (f g : Option Int) (it : OrderItemRec) (u : Nat) (b : Billing)
    (n : Nat) (onum : String) :
    (set_course_price s cid p).orderItems = s.orderItems
    ∧ (set_post_price s pid p).orderItems = s.orderItems
    ∧ (set_service_prices s sid f g).orderItems = s.orderItems
    ∧ (order_item_save s it).unit_price = it.unit_price
    ∧ (order_item_save s it).total_price
        = (order_item_save s it).unit_price
          * ((order_item_save s it).quantity : Int)
    ∧ (∀ x ∈ (checkout s u b n onum).2.orderItems,
        x ∈ s.orderItems
        ∨ x.total_price = x.unit_price * (x.quantity : Int)) := by
  refine ⟨rfl, rfl, rfl, rfl, rfl, ?_⟩
  rcases checkout_spec s u b n onum with ⟨hc, _⟩ | ⟨hc, _⟩ | ⟨hc, _⟩ |
    ⟨its, hb2, _, hc⟩
  · rw [hc]; exact fun x hx => Or.inl hx
  · rw [hc]; exact fun x hx => Or.inl hx
  · rw [hc]; exact fun x hx => Or.inl hx
  · rw [hc]
    intro x hx
    simp only [List.mem_append] at hx
    rcases hx with hx | hx
    · exact Or.inl hx
    · exact Or.inr (build_order_items_total s n (userBasket s u) its hb2 x hx)

/-- C8 witness: a concrete price change leaves the stored item untouched,
`save` computes the line total of the raw item, and the items of a concrete
checkout satisfy the law. -/
theorem order_item_price_snapshot_witness :
    (set_course_price exStateDemo 3 12999).orderItems
      = exStateDemo.orderItems
    ∧ (order_item_save exStateDemo exItemRaw).total_price
        = (order_item_save exStateDemo exItemRaw).unit_price
          * ((order_item_save exStateDemo exItemRaw).quantity : Int)
    ∧ (∀ x ∈ (checkout exStateDemo 7 ⟨"Ada", "a@b.c", ""⟩ 100
          "ORD-100").2.orderItems,
        x ∈ exStateDemo.orderItems
        ∨ x.total_price = x.unit_price * (x.quantity : Int)) :=
  ⟨(order_item_price_snapshot exStateDemo 3 9 1 12999 none none exItemRaw 7
      ⟨"Ada", "a@b.c", ""⟩ 100 "ORD-100").1,
    (order_item_price_snapshot exStateDemo 3 9 1 12999 none none exItemRaw 7
      ⟨"Ada", "a@b.c", ""⟩ 100 "ORD-100").2.2.2.2.1,
    (order_item_price_snapshot exStateDemo 3 9 1 12999 none none exItemRaw 7
      ⟨"Ada", "a@b.c", ""⟩ 100 "ORD-100").2.2.2.2.2⟩

/-!  ## C9 -/

/-- C9: checkout with a blank (stripped) billing name or email rejects
without persisting anything — the state, including the basket, is exactly
unchanged — and in every case checkout is all-or-nothing: either the state
is unchanged, or exactly the new order and all of its items are appended. -/
theorem checkout_validation_atomicity (s : State) (u : Nat) (b : Billing)
    (n : Nat) (onum : String) :
    ((strip b.billing_name == "" || strip b.billing_email == "") = true →
      (checkout s u b n onum).2 = s
      ∧ (checkout s u b n onum).1 ≠ CheckoutOutcome.ok)
    ∧ ((checkout s u b n onum).2 = s
      ∨ ∃ its, (checkout s u b n onum).2
          = { s with orders := s.orders ++ [checkoutOrder s u b n onum],
                     orderItems := s.orderItems ++ its }) := by
  rcases checkout_spec s u b n onum with ⟨hc, _⟩ | ⟨hc, _⟩ | ⟨hc, _⟩ |
    ⟨its, hb2, hvf, hc⟩
  · exact ⟨fun _ => ⟨by rw [hc], by rw [hc]; simp⟩, Or.inl (by rw [hc])⟩
  · exact ⟨fun _ => ⟨by rw [hc], by rw [hc]; simp⟩, Or.inl (by rw [hc])⟩
  · exact ⟨fun _ => ⟨by rw [hc], by rw [hc]; simp⟩, Or.inl (by rw [hc])⟩
  · refine ⟨fun hval => absurd hval (by rw [hvf]; simp), ?_⟩
    exact Or.inr ⟨its, by rw [hc]⟩

/-- C9 witness: blank billing name on a non-empty basket is rejected with
the state unchanged. -/
theorem checkout_validation_atomicity_witness :
    ((strip "" == "" || strip "a@b.c" == "") = true)
    ∧ ((checkout exStateBasket 7 ⟨"", "a@b.c", ""⟩ 100 "ORD-100").2
        = exStateBasket
      ∧ (checkout exStateBasket 7 ⟨"", "a@b.c", ""⟩ 100 "ORD-100").1
        ≠ CheckoutOutcome.ok) :=
  ⟨by decide,
    (checkout_validation_atomicity exStateBasket 7 ⟨"", "a@b.c", ""⟩ 100
      "ORD-100").1 (by decide)⟩

/-!  ## C10 -/

theorem mark_paid_basketItems (s : State) (oid : Nat) (pm tid : String)
    (pamt : Option Int) (now : Nat) (gen : String) :
    (mark_paid s oid pm tid pamt now gen).basketItems = s.basketItems := by
  unfold mark_paid
  cases findOrder s oid with
  | none => rfl
  | some o =>
    by_cases hp : o.status = OStatus.paid
    · simp [hp]
    · simp only [hp, if_false]
      rw [invoiceGetOrCreate_basketItems]
      rfl

/-- C10: when a payment is confirmed — by the demo payment view or by the
webhook's `charge:confirmed` path — EVERY basket row of the order's user is
deleted, including rows that are not line items of the paid order; rows of
other users survive. -/
theorem payment_clears_entire_basket :
    (∀ (s : State) (u : Nat) (onum pm : String) (now : Nat) (gen : String),
      (payment_view_demo s u onum pm now gen false).1 = PayOutcome.okPaid →
      (payment_view_demo s u onum pm now gen false).2.basketItems
        = s.basketItems.filter (fun bi => !(bi.userId == u)))
    ∧ (∀ (s : State) (cfg : WebhookCfg) (mac : String → String → String)
        (parse : String → Option WebhookEvent) (payload sig : String)
        (now : Nat) (gen : String) (ev : WebhookEvent) (onum : String)
        (o : OrderRec) (tx : String) (rest : List String),
      verify_webhook_signature mac cfg payload sig = true →
      parse payload = some ev →
      ev.eventType = "charge:confirmed" →
      ev.orderNumber = some onum →
      s.orders.find? (fun x => x.order_number == onum
        && x.coinbase_charge_id == ev.chargeId) = some o →
      o.status ≠ OStatus.paid →
      ev.payments = tx :: rest →
      (coinbase_webhook s cfg mac parse "POST" payload sig now
          gen).2.basketItems
        = s.basketItems.filter (fun bi => !(bi.userId == o.userId))) := by
  constructor
  · intro s u onum pm now gen hok
    cases hfind : s.orders.find?
        (fun x => x.order_number == onum && x.userId == u) with
    | none =>
      unfold payment_view_demo at hok
      rw [hfind] at hok
      exact absurd hok (by simp)
    | some o =>
      unfold payment_view_demo at hok ⊢
      rw [hfind] at hok ⊢
      by_cases hp : o.status = OStatus.paid
      · simp [hp] at hok
      · by_cases hpr : o.status ≠ OStatus.pending
            ∧ o.status ≠ OStatus.failed
        · simp [hp, hpr] at hok
        · have hres : (match some o with
              | none => (PayOutcome.notFound, s)
              | some o =>
                if o.status = OStatus.paid then (PayOutcome.alreadyPaid, s)
                else if o.status ≠ OStatus.pending
                    ∧ o.status ≠ OStatus.failed then
                  (PayOutcome.cannotProcess, s)
                else if false = true then
                  (PayOutcome.errorFailed, setStatus s o.id OStatus.failed)
                else
                  let s1 := mark_paid s o.id pm ("demo_txn_" ++ onum)
                    (some o.total_amount) now gen
                  let s2 := grant_access_to_products s1 o.id
                  let s3 := enroll_items u s2
                    (s2.orderItems.filter (fun it => it.orderId == o.id))
                  (PayOutcome.okPaid, clearBasket s3 u))
              = (PayOutcome.okPaid,
                clearBasket
                  (enroll_items u
                    (grant_access_to_products
                      (mark_paid s o.id pm ("demo_txn_" ++ onum)
                        (some o.total_amount) now gen) o.id)
                    ((grant_access_to_products
                        (mark_paid s o.id pm ("demo_txn_" ++ onum)
                          (some o.total_amount) now gen)
                        o.id).orderItems.filter
                      (fun it => it.orderId == o.id))) u) := by
            simp [hp, hpr]
          rw [hres]
          show (clearBasket _ u).basketItems = _
          unfold clearBasket
          simp only []
          rw [enroll_items_basketItems, grant_access_basketItems,
            mark_paid_basketItems]
  · intro s cfg mac parse payload sig now gen ev onum o tx rest hver hparse
      hevt honum hfind hnp hpays
    have heq : (("charge:confirmed" : String) == "charge:confirmed") = true :=
      by decide
    have hcw : (coinbase_webhook s cfg mac parse "POST" payload sig now
        gen).2
        = clearBasket
            (enroll_items o.userId
              (grant_access_to_products
                (mark_paid s o.id "coinbase_commerce" tx
                  (some o.total_amount) now gen) o.id)
              ((grant_access_to_products
                  (mark_paid s o.id "coinbase_commerce" tx
                    (some o.total_amount) now gen)
                  o.id).orderItems.filter
                (fun it => it.orderId == o.id))) o.userId := by
      unfold coinbase_webhook
      rw [hver, hparse]
      simp only [hevt, heq, honum, Bool.not_true, Bool.false_eq_true,
        if_false, if_true]
      simp [hfind, hnp, hpays]
    rw [hcw]
    unfold clearBasket
    simp only []
    rw [enroll_items_basketItems, grant_access_basketItems,
      mark_paid_basketItems]

/-- C10 witness: confirming user 7's pending order deletes their ordered
course row AND the post row added after the order was created, while user
8's row survives. -/
theorem payment_clears_entire_basket_witness :
    ((payment_view_demo exStateDemo 7 "ORD-1" "demo" 5 "g" false).1
      = PayOutcome.okPaid)
    ∧ (payment_view_demo exStateDemo 7 "ORD-1" "demo" 5 "g"
        false).2.basketItems
      = exStateDemo.basketItems.filter (fun bi => !(bi.userId == 7))
    ∧ exStateDemo.basketItems.filter (fun bi => !(bi.userId == 7))
      = [exBasketOther] :=
  ⟨by decide,
    payment_clears_entire_basket.1 exStateDemo 7 "ORD-1" "demo" 5 "g"
      (by decide),
    by decide⟩

end Amstack
